import Mathlib

/-!
Verification of the wave-field integrator of interference-city.

The simulation core lives in the fragment shaders and the frame loop of the
source file: a SIM_SIZE x SIM_SIZE grid of scalar values advanced under a
damped discrete wave equation, with a hard-coded cross-shaped obstacle mask,
Gaussian impulse injection, and a three-buffer rotation scheme.

Shader floating-point values are modelled as real numbers.  Normalized
texture coordinates of grid cells are exact rationals (cell i of a row of
resolution R sits at (i + 1/2) / R), so the obstacle-mask test is decidable.
-/

namespace InterferenceCity

/-- A grid field: row-major R x R scalar buffer (one render target). -/
abbrev Grid (R : ℕ) := Fin R → Fin R → ℝ

/-- Normalized texture coordinate of the center of cell `i` in a row of
resolution `R`; this is the value of `vUv` at that texel. -/
def uvOf (R : ℕ) (i : Fin R) : ℚ := ((i.val : ℚ) + 1/2) / (R : ℚ)

/-- Index clamping performed by `ClampToEdgeWrapping` plus `NearestFilter`
on the simulation render targets: an out-of-range texel index is clamped to
the nearest valid index (repeat-edge sampling, no wraparound). -/
def clampIdx (R : ℕ) (n : ℤ) : ℕ := (min (max n 0) ((R : ℤ) - 1)).toNat

/-- `texture2D` lookup at texel coordinates `(x, y)` (possibly out of range),
with clamp-to-edge addressing.  The degenerate `R = 0` case never arises from
the code (resolution is 128) and returns 0. -/
noncomputable def sample {R : ℕ} (g : Grid R) (x y : ℤ) : ℝ :=
  if hR : 0 < R then
    g ⟨clampIdx R x, by unfold clampIdx; omega⟩ ⟨clampIdx R y, by unfold clampIdx; omega⟩
  else 0

/-- GLSL `clamp(x, lo, hi)`. -/
noncomputable def glClamp (x lo hi : ℝ) : ℝ := min (max x lo) hi

/-- The hard-coded cross-shaped obstacle mask of the simulation fragment
shader (function `obstacleMask` in the GLSL source): a vertical bar and a
horizontal bar in the middle of the unit square. -/
def obstacleMask (px py : ℚ) : Bool :=
  (decide (px > 47/100) && decide (px < 53/100) && decide (py > 1/5) && decide (py < 4/5))
  || (decide (py > 47/100) && decide (py < 53/100) && decide (px > 1/5) && decide (px < 4/5))

/-- One evaluation of the simulation fragment shader, as a function of the
mask, the uniforms `u_c` (wave speed) and `u_damping`, and the three input
textures `u_prev` (current field), `u_prevPrev` (previous field) and
`u_sources`.  Obstacle cells are pinned to 0; all other cells get the damped
discrete wave update, clamped to [-5, 5]. -/
noncomputable def stepField {R : ℕ} (mask : ℚ → ℚ → Bool) (c damping : ℝ)
    (curr prev src : Grid R) : Grid R := fun x y =>
  if mask (uvOf R x) (uvOf R y) then 0
  else
    glClamp ((2 - damping) * curr x y - (1 - damping) * prev x y
      + c * c * (sample curr (x : ℤ) ((y : ℤ) + 1) + sample curr (x : ℤ) ((y : ℤ) - 1)
          + sample curr ((x : ℤ) - 1) (y : ℤ) + sample curr ((x : ℤ) + 1) (y : ℤ)
          - 4 * curr x y)
      + src x y) (-5) 5

/-- One transient source impulse, as pushed onto `pendingSources` by the
pointer handler: normalized center coordinates, strength and radius. -/
structure Impulse where
  uvx : ℝ
  uvy : ℝ
  strength : ℝ
  radius : ℝ

/-- Value contributed by one impulse at normalized position `(px, py)`
(the source-drawing fragment shader):
`exp(-(d*d) / (radius*radius)) * strength` where `d` is the distance from
the position to the impulse center. -/
noncomputable def impulseAt (imp : Impulse) (px py : ℝ) : ℝ :=
  Real.exp (-((px - imp.uvx)^2 + (py - imp.uvy)^2) / (imp.radius * imp.radius)) * imp.strength

/-- The source buffer produced by clearing `sourceRT` to black and drawing
every pending impulse with additive blending: contributions sum per cell. -/
noncomputable def rasterize {R : ℕ} (sources : List Impulse) : Grid R := fun x y =>
  (sources.map (fun imp => impulseAt imp ((uvOf R x : ℚ) : ℝ) ((uvOf R y : ℚ) : ℝ))).sum

/-- The mutable simulation state: the three physical render targets
(`rtCurr`, `rtPrev`, `rtTemp` at slots chosen by the three role indices),
the pending impulse queue, and the uniforms `u_c` and `u_damping`. -/
structure SimState (R : ℕ) where
  store : Fin 3 → Grid R
  iCurr : Fin 3
  iPrev : Fin 3
  iTemp : Fin 3
  pendingSources : List Impulse
  c : ℝ
  damping : ℝ

/-- The source term used by one `stepSimulation` call: the rasterization of
exactly the impulses pending at that moment. -/
noncomputable def sourceTerm {R : ℕ} (s : SimState R) : Grid R :=
  rasterize s.pendingSources

/-- The field computed by the simulation pass of one `stepSimulation` call:
the shader applied to the current and previous buffers and the freshly
rasterized source buffer, with the hard-coded obstacle mask. -/
noncomputable def computedNext {R : ℕ} (s : SimState R) : Grid R :=
  stepField obstacleMask s.c s.damping (s.store s.iCurr) (s.store s.iPrev) (sourceTerm s)

/-- One call of `stepSimulation`: rasterize the pending sources and clear
the queue, write the computed field into the `rtTemp` slot, then rotate the
role indices (`rtPrev := rtCurr; rtCurr := rtTemp; rtTemp := oldPrev`).
Only references are relabeled; no grid contents are copied. -/
noncomputable def stepSimulation {R : ℕ} (s : SimState R) : SimState R :=
  { store := Function.update s.store s.iTemp (computedNext s)
    iCurr := s.iTemp
    iPrev := s.iCurr
    iTemp := s.iPrev
    pendingSources := []
    c := s.c
    damping := s.damping }

/-- The pointer handler `onPointerDown` on a raycast hit with plane
coordinates `(u, v)`: it flips the y axis and pushes an impulse with the
constant parameters `strength = 3.0` and `radius = 0.03`. -/
noncomputable def onPointerDown {R : ℕ} (s : SimState R) (u v : ℝ) : SimState R :=
  { s with pendingSources :=
      s.pendingSources ++ [{ uvx := u, uvy := 1 - v, strength := 3, radius := 3/100 }] }

/-- A general enqueue of an arbitrary impulse onto the pending queue, the
operation `pendingSources.push(...)` performs; the code attaches no
validation to it. -/
noncomputable def enqueue {R : ℕ} (s : SimState R) (imp : Impulse) : SimState R :=
  { s with pendingSources := s.pendingSources ++ [imp] }

/-- The simulation resolution (`SIM_SIZE`). -/
def SIM_SIZE : ℕ := 128

/-- The startup state: all four render targets cleared to zero, roles bound
to slots 0 (`rtCurr`), 1 (`rtPrev`), 2 (`rtTemp`), empty impulse queue, and
the uniform values `u_c = 0.3`, `u_damping = 0.01`. -/
noncomputable def initState : SimState SIM_SIZE :=
  { store := fun _ => fun _ _ => 0
    iCurr := 0
    iPrev := 1
    iTemp := 2
    pendingSources := []
    c := 3/10
    damping := 1/100 }

/-- States reachable through the public interface: the startup state, a
simulation step, or a pointer-down impulse injection. -/
inductive Reachable : SimState SIM_SIZE → Prop
  | base : Reachable initState
  | step (s : SimState SIM_SIZE) : Reachable s → Reachable (stepSimulation s)
  | click (s : SimState SIM_SIZE) (u v : ℝ) : Reachable s → Reachable (onPointerDown s u v)

/-- An impulse with a non-positive radius, used to probe the enqueue path. -/
noncomputable def badImpulse : Impulse :=
  { uvx := 1/2, uvy := 1/2, strength := 1, radius := -1 }

/-- The constant grid with value `v` in every cell. -/
noncomputable def constGrid (R : ℕ) (v : ℝ) : Grid R := fun _ _ => v

/-- A small concrete state used to instantiate general theorems: one-cell
grids, all buffers zero, roles bound to slots 0, 1, 2, empty queue. -/
noncomputable def probeState : SimState 1 :=
  { store := fun _ => constGrid 1 0
    iCurr := 0
    iPrev := 1
    iTemp := 2
    pendingSources := []
    c := 3/10
    damping := 1/100 }

/-- A 3 x 3 state with the constant-one field as current, zero as previous,
no pending impulses, and the default uniform values: the configuration on
which the peak grows under one step. -/
noncomputable def c7State : SimState 3 :=
  { store := fun i => if i = 0 then constGrid 3 1 else constGrid 3 0
    iCurr := 0
    iPrev := 1
    iTemp := 2
    pendingSources := []
    c := 3/10
    damping := 1/100 }

/-- The impulse of the injection-locality scenario:
center (0.5, 0.5), radius 0.1, strength 1. -/
noncomputable def c8Impulse : Impulse :=
  { uvx := 1/2, uvy := 1/2, strength := 1, radius := 1/10 }

/-- The injection-locality scenario on the code as written: a 9 x 9 all-zero
state with the single pending impulse `c8Impulse`, waveSpeed 0.3, damping 0. -/
noncomputable def c8State : SimState 9 :=
  { store := fun _ => constGrid 9 0
    iCurr := 0
    iPrev := 1
    iTemp := 2
    pendingSources := [c8Impulse]
    c := 3/10
    damping := 0 }

/-- Squared normalized distance from the center of cell `(x, y)` of the
9 x 9 grid to the impulse center (0.5, 0.5). -/
noncomputable def c8DistSq (x y : Fin 9) : ℝ :=
  (((uvOf 9 x : ℚ) : ℝ) - 1/2)^2 + (((uvOf 9 y : ℚ) : ℝ) - 1/2)^2

/-- The field produced by one step of the injection-locality scenario with
the obstacle mask removed (all cells non-obstacle). -/
noncomputable def c8Next : Grid 9 :=
  stepField (fun _ _ => false) (3/10) 0 (constGrid 9 0) (constGrid 9 0)
    (rasterize [c8Impulse])

/-- All cells of an R x R grid, as a list of index pairs. -/
def cellPairs (R : ℕ) : List (Fin R × Fin R) :=
  (List.finRange R).flatMap (fun x => (List.finRange R).map (fun y => (x, y)))

/-- Peak absolute cell value over the whole grid. -/
noncomputable def peakAbs {R : ℕ} (g : Grid R) : ℝ :=
  ((cellPairs R).map (fun p => |g p.1 p.2|)).foldr max 0

/-! ### Helper lemmas -/

lemma le_foldr_max (l : List ℝ) (b x : ℝ) (hx : x ∈ l) : x ≤ l.foldr max b := by
  induction l with
  | nil => cases hx
  | cons a t ih =>
    rcases List.mem_cons.mp hx with h | h
    · exact h ▸ le_max_left _ _
    · exact le_trans (ih h) (le_max_right _ _)

lemma base_le_foldr_max (l : List ℝ) (b : ℝ) : b ≤ l.foldr max b := by
  induction l with
  | nil => exact le_refl b
  | cons a t ih => exact le_trans ih (le_max_right _ _)

lemma foldr_max_le (l : List ℝ) (b M : ℝ) (hb : b ≤ M) (h : ∀ a ∈ l, a ≤ M) :
    l.foldr max b ≤ M := by
  induction l with
  | nil => exact hb
  | cons a t ih =>
    exact max_le (h a (List.mem_cons_self a t)) (ih fun a ha => h a (List.mem_cons_of_mem _ ha))

lemma mem_cellPairs {R : ℕ} (x y : Fin R) : (x, y) ∈ cellPairs R := by
  unfold cellPairs
  refine List.mem_flatMap.mpr ⟨x, List.mem_finRange x, ?_⟩
  exact List.mem_map.mpr ⟨y, List.mem_finRange y, rfl⟩

lemma abs_le_peakAbs {R : ℕ} (g : Grid R) (x y : Fin R) : |g x y| ≤ peakAbs g :=
  le_foldr_max _ _ _ (List.mem_map.mpr ⟨(x, y), mem_cellPairs x y, rfl⟩)

lemma peakAbs_nonneg {R : ℕ} (g : Grid R) : 0 ≤ peakAbs g :=
  base_le_foldr_max _ _

lemma peakAbs_le {R : ℕ} (g : Grid R) (M : ℝ) (hM : 0 ≤ M)
    (h : ∀ x y, |g x y| ≤ M) : peakAbs g ≤ M := by
  refine foldr_max_le _ _ _ hM ?_
  intro a ha
  rcases List.mem_map.mp ha with ⟨p, _, rfl⟩
  exact h p.1 p.2

lemma clampIdx_lt {R : ℕ} (hR : 0 < R) (n : ℤ) : clampIdx R n < R := by
  unfold clampIdx; omega

lemma sample_eq {R : ℕ} (hR : 0 < R) (g : Grid R) (x y : ℤ) :
    sample g x y = g ⟨clampIdx R x, clampIdx_lt hR x⟩ ⟨clampIdx R y, clampIdx_lt hR y⟩ :=
  dif_pos hR

lemma abs_sample_le_peakAbs {R : ℕ} (hR : 0 < R) (g : Grid R) (x y : ℤ) :
    |sample g x y| ≤ peakAbs g := by
  rw [sample_eq hR]
  exact abs_le_peakAbs g _ _

lemma abs_glClamp_le (x : ℝ) : |glClamp x (-5) 5| ≤ |x| := by
  unfold glClamp
  rcases le_total x (-5) with h | h
  · rw [max_eq_right h, min_eq_left (by norm_num : (-5 : ℝ) ≤ 5)]
    rw [abs_of_nonpos (by norm_num : (-5 : ℝ) ≤ 0), abs_of_nonpos (le_trans h (by norm_num))]
    linarith
  · rw [max_eq_left h]
    rcases le_total x 5 with h5 | h5
    · rw [min_eq_left h5]
    · rw [min_eq_right h5, abs_of_nonneg (by norm_num : (0 : ℝ) ≤ 5),
        abs_of_nonneg (le_trans (by norm_num) h5)]
      linarith

lemma rasterize_nil {R : ℕ} (x y : Fin R) : rasterize ([] : List Impulse) x y = 0 := by
  simp [rasterize]

lemma pending_after_step {R : ℕ} (s : SimState R) :
    (stepSimulation s).pendingSources = [] := rfl

lemma mask_at_center128 :
    obstacleMask (uvOf SIM_SIZE ⟨64, by decide⟩) (uvOf SIM_SIZE ⟨64, by decide⟩) = true := by
  simp only [obstacleMask, uvOf, SIM_SIZE, Bool.or_eq_true, Bool.and_eq_true, decide_eq_true_eq]
  norm_num

lemma mask_at_bar128 :
    obstacleMask (uvOf SIM_SIZE ⟨64, by decide⟩) (uvOf SIM_SIZE ⟨30, by decide⟩) = true := by
  simp only [obstacleMask, uvOf, SIM_SIZE, Bool.or_eq_true, Bool.and_eq_true, decide_eq_true_eq]
  norm_num

lemma mask_low3 :
    obstacleMask (uvOf 3 ⟨0, by decide⟩) (uvOf 3 ⟨0, by decide⟩) = false := by
  simp only [obstacleMask, uvOf, Bool.or_eq_false_iff, Bool.and_eq_false_iff,
    decide_eq_false_iff_not, not_lt]
  norm_num

lemma mask_center9 :
    obstacleMask (uvOf 9 ⟨4, by decide⟩) (uvOf 9 ⟨4, by decide⟩) = true := by
  simp only [obstacleMask, uvOf, Bool.or_eq_true, Bool.and_eq_true, decide_eq_true_eq]
  norm_num

lemma sample_congr {R : ℕ} (g : Grid R) {a a' b b' : ℤ}
    (ha : clampIdx R a = clampIdx R a') (hb : clampIdx R b = clampIdx R b') :
    sample g a b = sample g a' b' := by
  unfold sample
  split
  · simp only [ha, hb]
  · rfl

lemma sample_constGrid {R : ℕ} (hR : 0 < R) (v : ℝ) (a b : ℤ) :
    sample (constGrid R v) a b = v := by
  rw [sample_eq hR]
  rfl

/-! ### Claim theorems -/

/-- C2: every cell where the obstacle mask is true is exactly 0 after any
`stepSimulation`, regardless of the current, previous and source fields; and
for a mask covering the entire grid the stepped field is identically zero
(the step is a total function, so no error is raised). -/
theorem c2_obstacle_zero :
    (∀ (R : ℕ) (s : SimState R) (x y : Fin R),
       obstacleMask (uvOf R x) (uvOf R y) = true →
       (stepSimulation s).store (stepSimulation s).iCurr x y = 0)
    ∧ (∀ (R : ℕ) (mask : ℚ → ℚ → Bool) (c damping : ℝ) (curr prev src : Grid R),
       (∀ p q : ℚ, mask p q = true) →
       ∀ x y : Fin R, stepField mask c damping curr prev src x y = 0) := by
  constructor
  · intro R s x y h
    show (Function.update s.store s.iTemp (computedNext s)) s.iTemp x y = 0
    rw [Function.update_same]
    unfold computedNext stepField
    rw [if_pos h]
  · intro R mask c damping curr prev src hall x y
    unfold stepField
    rw [if_pos (hall _ _)]

/-- Witness for C2: cell (64, 64) of the 128-grid lies on the cross mask and
is 0 after a step from the startup state; a mask that is true everywhere
zeroes a whole (here one-cell) grid. -/
theorem c2_obstacle_zero_witness :
    obstacleMask (uvOf SIM_SIZE ⟨64, by decide⟩) (uvOf SIM_SIZE ⟨64, by decide⟩) = true
    ∧ (stepSimulation initState).store (stepSimulation initState).iCurr
        ⟨64, by decide⟩ ⟨64, by decide⟩ = 0
    ∧ stepField (fun _ _ => true) 0 0 (fun _ _ => 1) (fun _ _ => 1) (fun _ _ => 1)
        (⟨0, by decide⟩ : Fin 1) (⟨0, by decide⟩ : Fin 1) = 0 :=
  ⟨mask_at_center128,
   c2_obstacle_zero.1 SIM_SIZE initState _ _ mask_at_center128,
   c2_obstacle_zero.2 1 (fun _ _ => true) 0 0 _ _ _ (fun _ _ => rfl) _ _⟩

/-- C3: after a step, the buffer that was previous is the new write target,
the buffer that was current is the new previous, and the buffer just computed
(the old write target) is the new current; pairwise distinctness of the three
role indices is preserved, and the step touches only the contents of the old
write-target slot — the rotation itself relabels indices over the same three
physical buffers and copies nothing. -/
theorem c3_rotation {R : ℕ} (s : SimState R)
    (h1 : s.iCurr ≠ s.iPrev) (h2 : s.iCurr ≠ s.iTemp) (h3 : s.iPrev ≠ s.iTemp) :
    (stepSimulation s).iTemp = s.iPrev
    ∧ (stepSimulation s).iPrev = s.iCurr
    ∧ (stepSimulation s).iCurr = s.iTemp
    ∧ (stepSimulation s).iCurr ≠ (stepSimulation s).iPrev
    ∧ (stepSimulation s).iCurr ≠ (stepSimulation s).iTemp
    ∧ (stepSimulation s).iPrev ≠ (stepSimulation s).iTemp
    ∧ (stepSimulation s).store = Function.update s.store s.iTemp (computedNext s)
    ∧ (∀ i : Fin 3, i ≠ s.iTemp → (stepSimulation s).store i = s.store i) := by
  refine ⟨rfl, rfl, rfl, ?_, ?_, ?_, rfl, ?_⟩
  · show s.iTemp ≠ s.iCurr
    exact Ne.symm h2
  · show s.iTemp ≠ s.iPrev
    exact Ne.symm h3
  · show s.iCurr ≠ s.iPrev
    exact h1
  · intro i hi
    show Function.update s.store s.iTemp (computedNext s) i = s.store i
    exact Function.update_noteq hi _ _

/-- Witness for C3 at a concrete state with distinct roles. -/
theorem c3_rotation_witness :
    probeState.iCurr ≠ probeState.iPrev
    ∧ (stepSimulation probeState).iTemp = probeState.iPrev
    ∧ (stepSimulation probeState).iPrev = probeState.iCurr
    ∧ (stepSimulation probeState).iCurr = probeState.iTemp :=
  ⟨by decide,
   (c3_rotation probeState (by decide) (by decide) (by decide)).1,
   (c3_rotation probeState (by decide) (by decide) (by decide)).2.1,
   (c3_rotation probeState (by decide) (by decide) (by decide)).2.2.1⟩

/-- C4: every value produced by one shader step lies in the fixed clamp
range [-5, 5], for obstacle and non-obstacle cells alike, for every input
state. -/
theorem c4_clamp_range {R : ℕ} (mask : ℚ → ℚ → Bool) (c damping : ℝ)
    (curr prev src : Grid R) (x y : Fin R) :
    -5 ≤ stepField mask c damping curr prev src x y
    ∧ stepField mask c damping curr prev src x y ≤ 5 := by
  unfold stepField
  split
  · norm_num
  · unfold glClamp
    exact ⟨le_min (le_max_right _ _) (by norm_num), min_le_right _ _⟩

/-- C5: the source buffer of a step is rasterized from exactly the impulses
pending at that moment (per-cell contributions from all pending impulses
sum), the pending queue is cleared unconditionally by the step, and every
later step therefore has an identically zero source term. -/
theorem c5_sources_one_step {R : ℕ} (s : SimState R) (k : ℕ) (x y : Fin R) :
    (stepSimulation s).pendingSources = []
    ∧ sourceTerm s x y
        = (s.pendingSources.map
            (fun imp => impulseAt imp ((uvOf R x : ℚ) : ℝ) ((uvOf R y : ℚ) : ℝ))).sum
    ∧ sourceTerm (stepSimulation^[k + 1] s) x y = 0 := by
  refine ⟨rfl, rfl, ?_⟩
  rw [Function.iterate_succ_apply']
  show rasterize (stepSimulation (stepSimulation^[k] s)).pendingSources x y = 0
  rw [pending_after_step]
  exact rasterize_nil x y

/-- C9: the obstacle mask is a fixed pure function of normalized coordinates
only, true exactly on the cross shape (vertical bar 0.47 < x < 0.53 with
0.2 < y < 0.8, union horizontal bar 0.47 < y < 0.53 with 0.2 < x < 0.8);
after a step from any reachable state the cells it covers are pinned to 0,
so no operation of the public interface changes the masked region. -/
theorem c9_mask_cross :
    (∀ px py : ℚ, obstacleMask px py = true ↔
       ((47/100 < px ∧ px < 53/100 ∧ 1/5 < py ∧ py < 4/5)
        ∨ (47/100 < py ∧ py < 53/100 ∧ 1/5 < px ∧ px < 4/5)))
    ∧ (∀ s : SimState SIM_SIZE, Reachable s → ∀ x y : Fin SIM_SIZE,
        obstacleMask (uvOf SIM_SIZE x) (uvOf SIM_SIZE y) = true →
        (stepSimulation s).store (stepSimulation s).iCurr x y = 0) := by
  constructor
  · intro px py
    simp only [obstacleMask, Bool.or_eq_true, Bool.and_eq_true, decide_eq_true_eq]
    tauto
  · intro s _ x y h
    show (Function.update s.store s.iTemp (computedNext s)) s.iTemp x y = 0
    rw [Function.update_same]
    unfold computedNext stepField
    rw [if_pos h]

/-- Witness for C9: a cell on the vertical bar of the 128-grid is masked and
reads 0 after a step from the (reachable) startup state. -/
theorem c9_mask_cross_witness :
    Reachable initState
    ∧ (stepSimulation initState).store (stepSimulation initState).iCurr
        ⟨64, by decide⟩ ⟨30, by decide⟩ = 0 :=
  ⟨Reachable.base, c9_mask_cross.2 initState Reachable.base _ _ mask_at_bar128⟩

/-- C10: every impulse in the pending queue of any state reachable through
the public interface (startup, steps, pointer clicks) carries the constant
parameters radius = 0.03 and strength = 3.0, hence radius strictly positive:
the radius ≤ 0 case can never arise at the public interface. -/
theorem c10_pending_radius (s : SimState SIM_SIZE) (hs : Reachable s) :
    ∀ imp ∈ s.pendingSources, imp.radius = 3/100 ∧ imp.strength = 3 ∧ 0 < imp.radius := by
  induction hs with
  | base =>
    intro imp h
    simp only [initState, List.not_mem_nil] at h
  | step t ht ih =>
    intro imp h
    rw [pending_after_step] at h
    cases h
  | click t u v ht ih =>
    intro imp h
    rcases List.mem_append.mp h with h | h
    · exact ih imp h
    · rcases List.mem_singleton.mp h with rfl
      exact ⟨rfl, rfl, by norm_num⟩

/-- Witness for C10: the impulse pushed by one pointer click on the startup
state is in the queue and has radius 0.03. -/
theorem c10_pending_radius_witness :
    Reachable (onPointerDown initState (1/2) (1/2))
    ∧ ({ uvx := 1/2, uvy := 1 - 1/2, strength := 3, radius := 3/100 } : Impulse)
        ∈ (onPointerDown initState (1/2) (1/2)).pendingSources
    ∧ ({ uvx := 1/2, uvy := 1 - 1/2, strength := 3, radius := 3/100 } : Impulse).radius
        = 3/100 :=
  ⟨Reachable.click _ _ _ Reachable.base,
   List.mem_append_right _ (List.mem_singleton.mpr rfl),
   (c10_pending_radius _ (Reachable.click _ _ _ Reachable.base) _
      (List.mem_append_right _ (List.mem_singleton.mpr rfl))).1⟩

/-- C6 counterexample: enqueuing an impulse with radius = -1 ≤ 0 does not
fail and is not dropped — the impulse lands in the pending queue, so the
claimed ImpulseError rejection does not exist in the code. -/
theorem c6_counterexample :
    badImpulse.radius ≤ 0
    ∧ (enqueue initState badImpulse).pendingSources = [badImpulse]
    ∧ (enqueue initState badImpulse).pendingSources ≠ initState.pendingSources := by
  refine ⟨by norm_num [badImpulse], rfl, ?_⟩
  intro h
  simp only [enqueue, initState, List.nil_append] at h
  exact List.cons_ne_nil _ _ h

/-- C6 amended: the enqueue path performs no radius validation and never
fails: every impulse, of any radius (in particular every radius > 0 one), is
appended to the pending queue, and all other simulation state is unchanged. -/
theorem c6_enqueue_unvalidated {R : ℕ} (s : SimState R) (imp : Impulse) :
    (enqueue s imp).pendingSources = s.pendingSources ++ [imp]
    ∧ (enqueue s imp).store = s.store
    ∧ (enqueue s imp).iCurr = s.iCurr
    ∧ (enqueue s imp).iPrev = s.iPrev
    ∧ (enqueue s imp).iTemp = s.iTemp
    ∧ (enqueue s imp).c = s.c
    ∧ (enqueue s imp).damping = s.damping :=
  ⟨rfl, rfl, rfl, rfl, rfl, rfl, rfl⟩

/-- C1 amended: for every non-obstacle cell the step computes
(2 - damping) * current - (1 - damping) * previous + waveSpeed^2 * laplacian
+ source with the 5-point-stencil laplacian, and the result is then clamped
to [-5, 5]; neighbor lookups outside the grid are clamped to the nearest
valid cell (repeat-edge sampling, no wraparound). -/
theorem c1_update_clamped {R : ℕ} (c damping : ℝ) (curr prev src : Grid R) (x y : Fin R)
    (hmask : obstacleMask (uvOf R x) (uvOf R y) = false) :
    stepField obstacleMask c damping curr prev src x y
      = glClamp ((2 - damping) * curr x y - (1 - damping) * prev x y
          + c * c * (sample curr ((x : ℤ) + 1) (y : ℤ) + sample curr ((x : ℤ) - 1) (y : ℤ)
              + sample curr (x : ℤ) ((y : ℤ) + 1) + sample curr (x : ℤ) ((y : ℤ) - 1)
              - 4 * curr x y)
          + src x y) (-5) 5
    ∧ (∀ (g : Grid R) (a b : ℤ), a < 0 → sample g a b = sample g 0 b)
    ∧ (∀ (g : Grid R) (a b : ℤ), (R : ℤ) ≤ a → sample g a b = sample g ((R : ℤ) - 1) b)
    ∧ (∀ (g : Grid R) (a b : ℤ), b < 0 → sample g a b = sample g a 0)
    ∧ (∀ (g : Grid R) (a b : ℤ), (R : ℤ) ≤ b → sample g a b = sample g a ((R : ℤ) - 1))
    ∧ (∀ (g : Grid R) (i j : Fin R), sample g (i : ℤ) (j : ℤ) = g i j) := by
  refine ⟨?_, ?_, ?_, ?_, ?_, ?_⟩
  · unfold stepField
    rw [if_neg (by simp [hmask])]
    congr 1
    ring
  · intro g a b ha
    exact sample_congr g (by unfold clampIdx; omega) rfl
  · intro g a b ha
    exact sample_congr g (by unfold clampIdx; omega) rfl
  · intro g a b hb
    exact sample_congr g rfl (by unfold clampIdx; omega)
  · intro g a b hb
    exact sample_congr g rfl (by unfold clampIdx; omega)
  · intro g i j
    have hR : 0 < R := i.pos
    rw [sample_eq hR]
    have hi : clampIdx R (i : ℤ) = i.val := by
      have := i.isLt
      unfold clampIdx; omega
    have hj : clampIdx R (j : ℤ) = j.val := by
      have := j.isLt
      unfold clampIdx; omega
    simp only [hi, hj, Fin.eta]

/-- Witness for C1: cell (0, 0) of a 3-grid is not masked, the update
equation holds there, and in-range sampling reads the cell directly. -/
theorem c1_update_clamped_witness :
    obstacleMask (uvOf 3 ⟨0, by decide⟩) (uvOf 3 ⟨0, by decide⟩) = false
    ∧ stepField obstacleMask (3/10) (1/100) (constGrid 3 0) (constGrid 3 0) (constGrid 3 10)
        ⟨0, by decide⟩ ⟨0, by decide⟩
      = glClamp ((2 - 1/100) * constGrid 3 0 ⟨0, by decide⟩ ⟨0, by decide⟩
          - (1 - 1/100) * constGrid 3 0 ⟨0, by decide⟩ ⟨0, by decide⟩
          + (3/10) * (3/10)
            * (sample (constGrid 3 0) (((⟨0, by decide⟩ : Fin 3) : ℤ) + 1)
                  ((⟨0, by decide⟩ : Fin 3) : ℤ)
               + sample (constGrid 3 0) (((⟨0, by decide⟩ : Fin 3) : ℤ) - 1)
                  ((⟨0, by decide⟩ : Fin 3) : ℤ)
               + sample (constGrid 3 0) ((⟨0, by decide⟩ : Fin 3) : ℤ)
                  (((⟨0, by decide⟩ : Fin 3) : ℤ) + 1)
               + sample (constGrid 3 0) ((⟨0, by decide⟩ : Fin 3) : ℤ)
                  (((⟨0, by decide⟩ : Fin 3) : ℤ) - 1)
               - 4 * constGrid 3 0 ⟨0, by decide⟩ ⟨0, by decide⟩)
          + constGrid 3 10 ⟨0, by decide⟩ ⟨0, by decide⟩) (-5) 5
    ∧ sample (constGrid 3 0) ((⟨0, by decide⟩ : Fin 3) : ℤ) ((⟨0, by decide⟩ : Fin 3) : ℤ)
        = constGrid 3 0 ⟨0, by decide⟩ ⟨0, by decide⟩ :=
  ⟨mask_low3,
   (c1_update_clamped (3/10) (1/100) (constGrid 3 0) (constGrid 3 0) (constGrid 3 10)
      ⟨0, by decide⟩ ⟨0, by decide⟩ mask_low3).1,
   (c1_update_clamped (3/10) (1/100) (constGrid 3 0) (constGrid 3 0) (constGrid 3 10)
      ⟨0, by decide⟩ ⟨0, by decide⟩ mask_low3).2.2.2.2.2 (constGrid 3 0) _ _⟩

/-- C1 counterexample: with a source of 10 on an all-zero 3-grid at the
unmasked cell (0, 0), the step produces 5 (the clamp bound), not the value
10 demanded by the unclamped update formula of the claim. -/
theorem c1_counterexample :
    stepField obstacleMask (3/10) (1/100) (constGrid 3 0) (constGrid 3 0) (constGrid 3 10)
        ⟨0, by decide⟩ ⟨0, by decide⟩
      ≠ (2 - 1/100) * constGrid 3 0 ⟨0, by decide⟩ ⟨0, by decide⟩
        - (1 - 1/100) * constGrid 3 0 ⟨0, by decide⟩ ⟨0, by decide⟩
        + (3/10) * (3/10)
          * (sample (constGrid 3 0) (((⟨0, by decide⟩ : Fin 3) : ℤ) + 1)
                ((⟨0, by decide⟩ : Fin 3) : ℤ)
             + sample (constGrid 3 0) (((⟨0, by decide⟩ : Fin 3) : ℤ) - 1)
                ((⟨0, by decide⟩ : Fin 3) : ℤ)
             + sample (constGrid 3 0) ((⟨0, by decide⟩ : Fin 3) : ℤ)
                (((⟨0, by decide⟩ : Fin 3) : ℤ) + 1)
             + sample (constGrid 3 0) ((⟨0, by decide⟩ : Fin 3) : ℤ)
                (((⟨0, by decide⟩ : Fin 3) : ℤ) - 1)
             - 4 * constGrid 3 0 ⟨0, by decide⟩ ⟨0, by decide⟩)
        + constGrid 3 10 ⟨0, by decide⟩ ⟨0, by decide⟩ := by
  unfold stepField
  rw [if_neg (by simp only [mask_low3]; exact Bool.false_ne_true)]
  simp only [sample_constGrid (by norm_num : (0:ℕ) < 3), constGrid]
  unfold glClamp
  norm_num [min_def, max_def]

lemma kernelBound (d cc u n1 n2 n3 n4 M : ℝ) (hcc : 0 ≤ cc) (hc4 : 4 * cc ≤ 1)
    (hu : |u| ≤ M) (h1 : |n1| ≤ M) (h2 : |n2| ≤ M) (h3 : |n3| ≤ M) (h4 : |n4| ≤ M) :
    |(2 - d) * u - (1 - d) * u + cc * (n1 + n2 + n3 + n4 - 4 * u) + 0| ≤ M := by
  obtain ⟨hu1, hu2⟩ := abs_le.mp hu
  obtain ⟨h11, h12⟩ := abs_le.mp h1
  obtain ⟨h21, h22⟩ := abs_le.mp h2
  obtain ⟨h31, h32⟩ := abs_le.mp h3
  obtain ⟨h41, h42⟩ := abs_le.mp h4
  rw [abs_le]
  constructor
  · nlinarith [mul_nonneg (by linarith : (0:ℝ) ≤ 1 - 4 * cc) (by linarith : (0:ℝ) ≤ M + u),
      mul_nonneg hcc (by linarith : (0:ℝ) ≤ M + n1),
      mul_nonneg hcc (by linarith : (0:ℝ) ≤ M + n2),
      mul_nonneg hcc (by linarith : (0:ℝ) ≤ M + n3),
      mul_nonneg hcc (by linarith : (0:ℝ) ≤ M + n4)]
  · nlinarith [mul_nonneg (by linarith : (0:ℝ) ≤ 1 - 4 * cc) (by linarith : (0:ℝ) ≤ M - u),
      mul_nonneg hcc (by linarith : (0:ℝ) ≤ M - n1),
      mul_nonneg hcc (by linarith : (0:ℝ) ≤ M - n2),
      mul_nonneg hcc (by linarith : (0:ℝ) ≤ M - n3),
      mul_nonneg hcc (by linarith : (0:ℝ) ≤ M - n4)]

/-- C7 amended: with damping > 0, no pending sources, previous equal to
current (start from rest) and 4 * waveSpeed^2 ≤ 1, the peak absolute cell
value is non-increasing across one step.  (The claim as stated, for every
pair of current and previous fields, fails: a nonzero velocity can raise
the peak — see the counterexample.) -/
theorem c7_peak_nonincreasing {R : ℕ} (s : SimState R)
    (hd : 0 < s.damping) (hp : s.pendingSources = [])
    (heq : s.store s.iPrev = s.store s.iCurr) (hc : 4 * (s.c * s.c) ≤ 1) :
    peakAbs ((stepSimulation s).store (stepSimulation s).iCurr)
      ≤ peakAbs (s.store s.iCurr) := by
  have hstore : (stepSimulation s).store (stepSimulation s).iCurr = computedNext s := by
    show Function.update s.store s.iTemp (computedNext s) s.iTemp = _
    rw [Function.update_same]
  rw [hstore]
  refine peakAbs_le _ _ (peakAbs_nonneg _) ?_
  intro x y
  have hR : 0 < R := x.pos
  have hcc : 0 ≤ s.c * s.c := mul_self_nonneg _
  unfold computedNext stepField
  split
  · rw [abs_zero]
    exact peakAbs_nonneg _
  · refine le_trans (abs_glClamp_le _) ?_
    rw [heq]
    have hsrc : sourceTerm s x y = 0 := by
      show rasterize s.pendingSources x y = 0
      rw [hp]
      exact rasterize_nil x y
    rw [hsrc]
    exact kernelBound s.damping (s.c * s.c) (s.store s.iCurr x y)
      (sample (s.store s.iCurr) (x : ℤ) ((y : ℤ) + 1))
      (sample (s.store s.iCurr) (x : ℤ) ((y : ℤ) - 1))
      (sample (s.store s.iCurr) ((x : ℤ) - 1) (y : ℤ))
      (sample (s.store s.iCurr) ((x : ℤ) + 1) (y : ℤ))
      (peakAbs (s.store s.iCurr)) hcc hc
      (abs_le_peakAbs _ x y)
      (abs_sample_le_peakAbs hR _ _ _)
      (abs_sample_le_peakAbs hR _ _ _)
      (abs_sample_le_peakAbs hR _ _ _)
      (abs_sample_le_peakAbs hR _ _ _)

/-- Witness for C7 at a concrete resting state. -/
theorem c7_peak_nonincreasing_witness :
    0 < probeState.damping
    ∧ probeState.pendingSources = []
    ∧ probeState.store probeState.iPrev = probeState.store probeState.iCurr
    ∧ 4 * (probeState.c * probeState.c) ≤ 1
    ∧ peakAbs ((stepSimulation probeState).store (stepSimulation probeState).iCurr)
        ≤ peakAbs (probeState.store probeState.iCurr) :=
  ⟨by norm_num [probeState], rfl, rfl, by norm_num [probeState],
   c7_peak_nonincreasing probeState (by norm_num [probeState]) rfl rfl
     (by norm_num [probeState])⟩

/-- C7 counterexample: on the 3 x 3 state with current all ones and
previous all zeros (damping = 0.01 > 0, no pending sources), one step
raises the peak from 1 to 1.99, so the peak is not non-increasing for every
pair of current and previous fields. -/
theorem c7_counterexample :
    0 < c7State.damping
    ∧ c7State.pendingSources = []
    ∧ ¬ (peakAbs ((stepSimulation c7State).store (stepSimulation c7State).iCurr)
          ≤ peakAbs (c7State.store c7State.iCurr)) := by
  refine ⟨by norm_num [c7State], rfl, ?_⟩
  have hstore : (stepSimulation c7State).store (stepSimulation c7State).iCurr
      = computedNext c7State := by
    show Function.update c7State.store c7State.iTemp (computedNext c7State) c7State.iTemp = _
    rw [Function.update_same]
  have hval : computedNext c7State ⟨0, by decide⟩ ⟨0, by decide⟩ = 199/100 := by
    show stepField obstacleMask (3/10) (1/100) (constGrid 3 1) (constGrid 3 0)
        (sourceTerm c7State) ⟨0, by decide⟩ ⟨0, by decide⟩ = 199/100
    unfold stepField
    rw [if_neg (by simp only [mask_low3]; exact Bool.false_ne_true)]
    simp only [sample_constGrid (by norm_num : (0:ℕ) < 3), constGrid]
    have hsrc : sourceTerm c7State (⟨0, by decide⟩ : Fin 3) (⟨0, by decide⟩ : Fin 3) = 0 :=
      rasterize_nil _ _
    rw [hsrc]
    unfold glClamp
    norm_num [min_def, max_def]
  have hbefore : peakAbs (c7State.store c7State.iCurr) ≤ 1 := by
    refine peakAbs_le _ 1 (by norm_num) ?_
    intro a b
    show |(1:ℝ)| ≤ 1
    norm_num
  have hafter : (199:ℝ)/100
      ≤ peakAbs ((stepSimulation c7State).store (stepSimulation c7State).iCurr) := by
    rw [hstore]
    calc (199:ℝ)/100 = |computedNext c7State ⟨0, by decide⟩ ⟨0, by decide⟩| := by
          rw [hval, abs_of_pos (by norm_num : (0:ℝ) < 199/100)]
      _ ≤ peakAbs (computedNext c7State) := abs_le_peakAbs _ _ _
  intro hle
  linarith

lemma c8DistSq_center : c8DistSq ⟨4, by decide⟩ ⟨4, by decide⟩ = 0 := by
  unfold c8DistSq uvOf
  push_cast
  norm_num

lemma c8DistSq_far : ((3 * (1/10) : ℝ))^2 < c8DistSq ⟨0, by decide⟩ ⟨0, by decide⟩ := by
  unfold c8DistSq uvOf
  push_cast
  norm_num

/-- C8 amended: in the injection-locality scenario with the obstacle mask
removed, one step from the all-zero 9 x 9 state with the single impulse
(center (0.5, 0.5), radius 0.1, strength 1), waveSpeed 0.3 and damping 0
gives every cell the value exp(-d^2 / radius^2) of the Gaussian source: the
cell at the center reads exactly 1 > 0, every cell reads strictly more than
0 (so no cell farther than 3 radii is exactly 0, contrary to the claim),
and cells farther than 3 radii from the center read at most exp(-9). -/
theorem c8_injection_locality (x y : Fin 9) :
    c8Next x y = Real.exp (-(c8DistSq x y) / ((1/10) * (1/10)))
    ∧ 0 < c8Next x y
    ∧ (c8DistSq x y = 0 → c8Next x y = 1)
    ∧ ((3 * (1/10) : ℝ)^2 < c8DistSq x y → c8Next x y ≤ Real.exp (-9)) := by
  have hd2 : 0 ≤ c8DistSq x y := by
    unfold c8DistSq
    positivity
  have harg : -(c8DistSq x y) / ((1/10 : ℝ) * (1/10)) ≤ 0 := by
    apply div_nonpos_of_nonpos_of_nonneg
    · linarith
    · norm_num
  have hE0 : 0 < Real.exp (-(c8DistSq x y) / ((1/10 : ℝ) * (1/10))) := Real.exp_pos _
  have hE1 : Real.exp (-(c8DistSq x y) / ((1/10 : ℝ) * (1/10))) ≤ 1 := by
    calc Real.exp (-(c8DistSq x y) / ((1/10 : ℝ) * (1/10)))
        ≤ Real.exp 0 := Real.exp_le_exp.mpr harg
      _ = 1 := Real.exp_zero
  have hmain : c8Next x y = Real.exp (-(c8DistSq x y) / ((1/10) * (1/10))) := by
    unfold c8Next stepField
    rw [if_neg (by simp)]
    simp only [sample_constGrid (by norm_num : (0:ℕ) < 9), constGrid]
    have hsrc : rasterize [c8Impulse] x y
        = Real.exp (-(c8DistSq x y) / ((1/10 : ℝ) * (1/10))) := by
      unfold rasterize
      simp only [List.map_cons, List.map_nil, List.sum_cons, List.sum_nil, add_zero]
      unfold impulseAt c8Impulse c8DistSq
      norm_num
    rw [hsrc]
    unfold glClamp
    rw [show (2 - (0:ℝ)) * 0 - (1 - 0) * 0
          + 3/10 * (3/10) * (0 + 0 + 0 + 0 - 4 * 0)
          + Real.exp (-(c8DistSq x y) / ((1/10 : ℝ) * (1/10)))
        = Real.exp (-(c8DistSq x y) / ((1/10 : ℝ) * (1/10))) by ring]
    rw [max_eq_left (by linarith : (-5 : ℝ) ≤ Real.exp (-(c8DistSq x y) / ((1/10 : ℝ) * (1/10))))]
    rw [min_eq_left (by linarith : Real.exp (-(c8DistSq x y) / ((1/10 : ℝ) * (1/10))) ≤ 5)]
  refine ⟨hmain, ?_, ?_, ?_⟩
  · rw [hmain]
    exact hE0
  · intro h0
    rw [hmain, h0]
    norm_num
  · intro hfar
    rw [hmain]
    refine Real.exp_le_exp.mpr ?_
    rw [div_le_iff₀ (by norm_num : (0:ℝ) < (1/10) * (1/10))]
    nlinarith [hfar]

/-- Witness for C8: the center cell (4, 4) has squared distance 0 and value
1; the corner cell (0, 0) is farther than 3 radii and reads a positive value
of at most exp(-9). -/
theorem c8_injection_locality_witness :
    (c8DistSq ⟨4, by decide⟩ ⟨4, by decide⟩ = 0
      ∧ c8Next ⟨4, by decide⟩ ⟨4, by decide⟩ = 1)
    ∧ ((3 * (1/10) : ℝ)^2 < c8DistSq ⟨0, by decide⟩ ⟨0, by decide⟩
      ∧ c8Next ⟨0, by decide⟩ ⟨0, by decide⟩ ≤ Real.exp (-9))
    ∧ 0 < c8Next ⟨0, by decide⟩ ⟨0, by decide⟩ :=
  ⟨⟨c8DistSq_center, (c8_injection_locality _ _).2.2.1 c8DistSq_center⟩,
   ⟨c8DistSq_far, (c8_injection_locality _ _).2.2.2 c8DistSq_far⟩,
   (c8_injection_locality _ _).2.1⟩

/-- C8 counterexample: in the scenario exactly as claimed (all-zero 9 x 9
grid, waveSpeed 0.3, damping 0, the single pending impulse at (0.5, 0.5)),
the step of the code pins the center cell (4, 4) to 0 through the hard-coded
cross obstacle mask, so current[center] > 0 fails. -/
theorem c8_counterexample :
    c8State.c = 3/10
    ∧ c8State.damping = 0
    ∧ c8State.pendingSources = [c8Impulse]
    ∧ ¬ (0 < (stepSimulation c8State).store (stepSimulation c8State).iCurr
            ⟨4, by decide⟩ ⟨4, by decide⟩) := by
  refine ⟨rfl, rfl, rfl, ?_⟩
  have hstore : (stepSimulation c8State).store (stepSimulation c8State).iCurr
      = computedNext c8State := by
    show Function.update c8State.store c8State.iTemp (computedNext c8State) c8State.iTemp = _
    rw [Function.update_same]
  have hval : computedNext c8State ⟨4, by decide⟩ ⟨4, by decide⟩ = 0 := by
    unfold computedNext stepField
    rw [if_pos mask_center9]
  rw [hstore, hval]
  exact lt_irrefl 0

end InterferenceCity
